import Mathlib

/-!
Shallow embedding of the "Receitas da Avó" recipe application
(`src/services/api.js`, `src/pages/Home.jsx`, `src/pages/RecipeDetail.jsx`,
`src/pages/AdminDashboard.jsx`) and proofs about its data-translation,
like, search/pagination and admin CRUD logic.

Records coming from the remote spreadsheet store may lack fields, so the
storage shape is a structure of `Option`-valued fields; the UI shape produced
by `normalizeRecipe` always carries concrete strings and numbers (except the
`id`, which the code copies verbatim without a default).
-/

/-- Storage-shape record (the Sheety row `receita`): every field may be
absent, mirroring a JS object with possibly-`undefined` properties. The same
shape doubles as a request body, where an absent field means "not sent". -/
structure Receita where
  id : Option Nat
  titulo : Option String
  imagem : Option String
  tempo : Option String
  ingredientes : Option String
  preparacao : Option String
  likes : Option Nat
  categoria : Option String
deriving DecidableEq, Repr

/-- UI-shape record produced by `normalizeRecipe`: all fields are concrete
except `id`, which the source copies without a default. -/
structure RecipeUI where
  id : Option Nat
  titulo : String
  imagem_url : String
  tempo_preparo : String
  ingredientes : String
  instrucoes : String
  likes : Nat
  categoria : String
  categoria_id : String
deriving DecidableEq, Repr

/-- The admin form buffer (`emptyForm` shape in AdminDashboard.jsx): exactly
the six text fields read by `denormalizeRecipe`. -/
structure FormData where
  titulo : String
  imagem_url : String
  tempo_preparo : String
  ingredientes : String
  instrucoes : String
  categoria_id : String
deriving DecidableEq, Repr

/-- A category row (`categorias` sheet). -/
structure Categoria where
  id : Nat
  nome : String
deriving DecidableEq, Repr

/-- JS `x || d` on a possibly-undefined string: an absent or empty string is
falsy and yields the default `d`. -/
def jsOrStr (o : Option String) (d : String) : String :=
  match o with
  | some s => if s = "" then d else s
  | none => d

/-- JS `x || 0` on a possibly-undefined number (`receita.likes || 0`). -/
def jsOrZero (o : Option Nat) : Nat := o.getD 0

/-- `normalizeRecipe` (RecipeCard.jsx bundle, api.js lines 109-120):
storage shape to UI shape. `id` is copied verbatim; every text field
defaults to `""` except `categoria`, which defaults to `"Sem categoria"`;
`categoria_id` duplicates `categoria` but defaults to `""`. -/
def normalizeRecipe (receita : Receita) : RecipeUI :=
  { id := receita.id
    titulo := jsOrStr receita.titulo ""
    imagem_url := jsOrStr receita.imagem ""
    tempo_preparo := jsOrStr receita.tempo ""
    ingredientes := jsOrStr receita.ingredientes ""
    instrucoes := jsOrStr receita.preparacao ""
    likes := jsOrZero receita.likes
    categoria := jsOrStr receita.categoria "Sem categoria"
    categoria_id := jsOrStr receita.categoria "" }

/-- `denormalizeRecipe` (api.js lines 125-132): form data to storage shape.
It reads exactly the six form fields; the produced body has no `id` and no
`likes` property. -/
def denormalizeRecipe (data : FormData) : Receita :=
  { id := none
    titulo := some data.titulo
    imagem := some data.imagem_url
    tempo := some data.tempo_preparo
    ingredientes := some data.ingredientes
    preparacao := some data.instrucoes
    likes := none
    categoria := some data.categoria_id }

/-- Projection of a UI record onto the six properties `denormalizeRecipe`
reads, so the storage-to-UI-to-storage round trip can be composed. -/
def RecipeUI.toForm (u : RecipeUI) : FormData :=
  { titulo := u.titulo
    imagem_url := u.imagem_url
    tempo_preparo := u.tempo_preparo
    ingredientes := u.ingredientes
    instrucoes := u.instrucoes
    categoria_id := u.categoria_id }

/-- Storage-to-UI-to-storage round trip. -/
def roundTrip (r : Receita) : Receita :=
  denormalizeRecipe (normalizeRecipe r).toForm

/-- All eight storage fields are present. -/
def allPresent (r : Receita) : Prop :=
  r.id.isSome ∧ r.titulo.isSome ∧ r.imagem.isSome ∧ r.tempo.isSome ∧
    r.ingredientes.isSome ∧ r.preparacao.isSome ∧ r.likes.isSome ∧
    r.categoria.isSome

/-- A fully populated storage record used as a concrete test vector. -/
def receitaCompleta : Receita :=
  { id := some 1
    titulo := some "Bolo de Bolacha"
    imagem := some "https://example.org/bolo.jpg"
    tempo := some "45 min"
    ingredientes := some "bolachas"
    preparacao := some "misturar"
    likes := some 7
    categoria := some "Doces" }

lemma jsOrStr_some_empty (s : String) : jsOrStr (some s) "" = s := by
  by_cases h : s = "" <;> simp [jsOrStr, h]

/-- C1 counterexample: the round trip does not return the original record,
because `denormalizeRecipe` emits no `likes` field — the original stored
`likes` value (7 here) is lost. -/
theorem roundTrip_drops_likes :
    roundTrip receitaCompleta ≠ receitaCompleta ∧
      (roundTrip receitaCompleta).likes = none ∧
      receitaCompleta.likes = some 7 := by
  refine ⟨?_, rfl, rfl⟩
  intro h
  have hl : (roundTrip receitaCompleta).likes = receitaCompleta.likes :=
    congrArg Receita.likes h
  simp [roundTrip, receitaCompleta, denormalizeRecipe] at hl

/-- C1 amended: for a storage record with all fields present, the round trip
preserves `titulo`, `imagem`, `tempo`, `ingredientes`, `preparacao` and
`categoria`, but its result carries no `id` and no `likes` field; and in the
UI intermediate the duplicated selector `categoria_id` equals `categoria`
exactly when the stored category is nonempty. -/
theorem roundTrip_preserves_text_fields (i k : Nat)
    (t im tp ing pr c : String) :
    roundTrip
        (Receita.mk (some i) (some t) (some im) (some tp) (some ing)
          (some pr) (some k) (some c)) =
      Receita.mk none (some t) (some im) (some tp) (some ing) (some pr)
        none (some c) ∧
    ((normalizeRecipe
        (Receita.mk (some i) (some t) (some im) (some tp) (some ing)
          (some pr) (some k) (some c))).categoria_id =
      (normalizeRecipe
        (Receita.mk (some i) (some t) (some im) (some tp) (some ing)
          (some pr) (some k) (some c))).categoria ↔ c ≠ "") := by
  constructor
  · simp [roundTrip, normalizeRecipe, denormalizeRecipe, RecipeUI.toForm,
      jsOrStr_some_empty]
  · by_cases h : c = "" <;>
      simp [normalizeRecipe, jsOrStr, h, RecipeUI.toForm]

/-- A storage record whose `categoria` field is absent. -/
def receitaSemCategoria : Receita :=
  { id := some 2
    titulo := some "Caldo Verde"
    imagem := some "https://example.org/caldo.jpg"
    tempo := some "30 min"
    ingredientes := some "couve"
    preparacao := some "ferver"
    likes := some 3
    categoria := none }

/-- C2 counterexample: a missing `categoria` does not normalize to the empty
string — the code substitutes the literal `"Sem categoria"`. -/
theorem normalize_missing_categoria_not_empty :
    (normalizeRecipe receitaSemCategoria).categoria = "Sem categoria" ∧
      ¬ (normalizeRecipe receitaSemCategoria).categoria = "" := by
  constructor
  · rfl
  · intro h
    simp [normalizeRecipe, receitaSemCategoria, jsOrStr] at h

/-- C2 amended: each missing text field among `titulo`, `imagem`, `tempo`,
`ingredientes`, `preparacao` normalizes to `""` and a missing `likes`
normalizes to `0`, but a missing `categoria` normalizes to `"Sem categoria"`
(with `categoria_id = ""`); the `id` is copied verbatim, so it — and only
it — is absent in the UI record exactly when absent in storage. -/
theorem normalizeRecipe_defaults (r : Receita) :
    (r.titulo = none → (normalizeRecipe r).titulo = "") ∧
    (r.imagem = none → (normalizeRecipe r).imagem_url = "") ∧
    (r.tempo = none → (normalizeRecipe r).tempo_preparo = "") ∧
    (r.ingredientes = none → (normalizeRecipe r).ingredientes = "") ∧
    (r.preparacao = none → (normalizeRecipe r).instrucoes = "") ∧
    (r.likes = none → (normalizeRecipe r).likes = 0) ∧
    (r.categoria = none →
      (normalizeRecipe r).categoria = "Sem categoria" ∧
        (normalizeRecipe r).categoria_id = "") ∧
    (normalizeRecipe r).id = r.id := by
  refine ⟨?_, ?_, ?_, ?_, ?_, ?_, ?_, rfl⟩ <;> intro h <;>
    simp [normalizeRecipe, jsOrStr, jsOrZero, h]

/-- A storage record with every field absent. -/
def receitaVazia : Receita :=
  { id := none, titulo := none, imagem := none, tempo := none
    ingredientes := none, preparacao := none, likes := none
    categoria := none }

/-- Witness for the amended C2 at the all-absent record. -/
theorem normalizeRecipe_defaults_witness :
    (normalizeRecipe receitaVazia).titulo = "" ∧
      (normalizeRecipe receitaVazia).instrucoes = "" ∧
      (normalizeRecipe receitaVazia).likes = 0 ∧
      (normalizeRecipe receitaVazia).categoria = "Sem categoria" := by
  have h := normalizeRecipe_defaults receitaVazia
  exact ⟨h.1 rfl, h.2.2.2.2.1 rfl, h.2.2.2.2.2.1 rfl,
    (h.2.2.2.2.2.2.1 rfl).1⟩

/-- Result of one `likeRecipe` call: the value returned to the caller and
the body of the PUT request it issued, if any. -/
structure LikeCall where
  returned : Option Nat
  putBody : Option Receita
deriving DecidableEq, Repr

/-- `likeRecipe` (api.js lines 260-282) as a function of the record the
initial GET fetched: if the server reports no record it returns `none` and
issues no update; otherwise it computes `(receita.likes || 0) + 1`, issues a
PUT whose body carries only that new like count, and returns it. -/
def likeRecipe (fetched : Option Receita) : LikeCall :=
  match fetched with
  | none => { returned := none, putBody := none }
  | some receita =>
      let newLikes := jsOrZero receita.likes + 1
      { returned := some newLikes
        putBody := some
          { id := none, titulo := none, imagem := none, tempo := none
            ingredientes := none, preparacao := none
            likes := some newLikes, categoria := none } }

/-- A request body that carries nothing but a like count. -/
def onlyLikesBody (b : Receita) : Prop :=
  b.id = none ∧ b.titulo = none ∧ b.imagem = none ∧ b.tempo = none ∧
    b.ingredientes = none ∧ b.preparacao = none ∧ b.categoria = none

/-- C3: `likeRecipe` returns `none` and submits no update when the server
reports no record; otherwise it returns the fetched like count plus one and
submits a partial update whose body carries only the new like count. -/
theorem likeRecipe_spec (fetched : Option Receita) :
    (fetched = none → likeRecipe fetched = ⟨none, none⟩) ∧
    (∀ r, fetched = some r →
      (likeRecipe fetched).returned = some (jsOrZero r.likes + 1) ∧
      ∃ b, (likeRecipe fetched).putBody = some b ∧
        b.likes = some (jsOrZero r.likes + 1) ∧ onlyLikesBody b) ∧
    (∀ r k, fetched = some r → r.likes = some k →
      (likeRecipe fetched).returned = some (k + 1)) := by
  refine ⟨?_, ?_, ?_⟩
  · intro h; subst h; rfl
  · intro r h; subst h
    exact ⟨rfl, _, rfl, rfl, rfl, rfl, rfl, rfl, rfl, rfl, rfl⟩
  · intro r k h hk; subst h
    simp [likeRecipe, jsOrZero, hk]

/-- A fully populated storage record with 5 likes, used to exercise
`likeRecipe`. -/
def receitaLikes5 : Receita :=
  { id := some 3
    titulo := some "Arroz Doce"
    imagem := some "https://example.org/arroz.jpg"
    tempo := some "60 min"
    ingredientes := some "arroz"
    preparacao := some "cozer"
    likes := some 5
    categoria := some "Doces" }

/-- Witness for C3: on a record with 5 likes the call returns 6 and the PUT
body carries only `likes = 6`; on an absent record it is a silent no-op. -/
theorem likeRecipe_spec_witness :
    likeRecipe none = ⟨none, none⟩ ∧
      (likeRecipe (some receitaLikes5)).returned = some 6 := by
  refine ⟨(likeRecipe_spec none).1 rfl, ?_⟩
  have h :=
    ((likeRecipe_spec (some receitaLikes5)).2.2 receitaLikes5 5 rfl rfl)
  exact h

/-- `createRecipe` (api.js lines 210-223) as a function of the submitted
form and of the record the server returns: the POST body is the
denormalized form with `likes` overridden to `0` (the JS spread
`{...denormalizeRecipe(data), likes: 0}`), and the caller receives the
server's record run through `normalizeRecipe`. -/
def createRecipe (data : FormData) (serverResp : Receita) :
    Receita × RecipeUI :=
  ({ denormalizeRecipe data with likes := some 0 },
    normalizeRecipe serverResp)

/-- C4: the storage record submitted by `createRecipe` always carries a like
count of 0 — also when the form was projected from a UI record holding an
arbitrary like count — and the returned value is the server's resulting
record translated back to UI shape. -/
theorem createRecipe_forces_zero_likes (data : FormData)
    (serverResp : Receita) (u : RecipeUI) :
    (createRecipe data serverResp).1.likes = some 0 ∧
      (createRecipe u.toForm serverResp).1.likes = some 0 ∧
      (createRecipe data serverResp).2 = normalizeRecipe serverResp := by
  exact ⟨rfl, rfl, rfl⟩

/-- `updateRecipe` (api.js lines 230-240) as a function of the submitted
form and of the record the server returns: the PUT body is exactly
`denormalizeRecipe data`, and the caller receives the server's record run
through `normalizeRecipe`. -/
def updateRecipe (data : FormData) (serverResp : Receita) :
    Receita × RecipeUI :=
  (denormalizeRecipe data, normalizeRecipe serverResp)

/-- First-of: a field sent in a request body overrides the stored value,
an omitted field keeps it. -/
def ovr {α : Type} (body cur : Option α) : Option α :=
  match body with
  | some v => some v
  | none => cur

/-- Modelled from the spec: the remote spreadsheet store (an external
collaborator, not part of src/) applies a PUT body as a field-wise update,
overwriting exactly the fields present in the body and keeping the stored
value for fields the body omits. -/
def applyPut (cur body : Receita) : Receita :=
  { id := ovr body.id cur.id
    titulo := ovr body.titulo cur.titulo
    imagem := ovr body.imagem cur.imagem
    tempo := ovr body.tempo cur.tempo
    ingredientes := ovr body.ingredientes cur.ingredientes
    preparacao := ovr body.preparacao cur.preparacao
    likes := ovr body.likes cur.likes
    categoria := ovr body.categoria cur.categoria }

/-- C10: the PUT body submitted by `updateRecipe` carries no `likes` and no
`id` field, so applying it to any stored record leaves the stored like count
(and identifier) unchanged: a full-record update can never change a
recipe's like count. -/
theorem updateRecipe_payload_frame (data : FormData)
    (serverResp cur : Receita) :
    (updateRecipe data serverResp).1.likes = none ∧
      (updateRecipe data serverResp).1.id = none ∧
      (applyPut cur (updateRecipe data serverResp).1).likes = cur.likes ∧
      (applyPut cur (updateRecipe data serverResp).1).id = cur.id := by
  exact ⟨rfl, rfl, rfl, rfl⟩

/-- JS `hay.includes(needle)` on character lists: the needle occurs as a
contiguous run somewhere in the haystack. -/
def hasSub : List Char → List Char → Bool
  | [], needle => needle.isEmpty
  | a :: t, needle => needle.isPrefixOf (a :: t) || hasSub t needle

lemma isPrefixOf_eq_true_iff (n h : List Char) :
    n.isPrefixOf h = true ↔ ∃ t, h = n ++ t := by
  induction n generalizing h with
  | nil => simp [List.isPrefixOf]
  | cons a n ih =>
    cases h with
    | nil => simp [List.isPrefixOf]
    | cons b t =>
      simp only [List.isPrefixOf, Bool.and_eq_true, beq_iff_eq, ih]
      constructor
      · rintro ⟨rfl, u, rfl⟩
        exact ⟨u, rfl⟩
      · rintro ⟨u, hu⟩
        rw [List.cons_append] at hu
        cases hu
        exact ⟨rfl, u, rfl⟩

lemma hasSub_eq_true_iff (h n : List Char) :
    hasSub h n = true ↔ ∃ l r, h = l ++ n ++ r := by
  induction h with
  | nil =>
    simp only [hasSub, List.isEmpty_iff]
    constructor
    · rintro rfl
      exact ⟨[], [], rfl⟩
    · rintro ⟨l, r, hl⟩
      rcases List.append_eq_nil.mp hl.symm with ⟨h1, h2⟩
      exact (List.append_eq_nil.mp h1).2
  | cons a t ih =>
    simp only [hasSub, Bool.or_eq_true, isPrefixOf_eq_true_iff, ih]
    constructor
    · rintro (⟨u, hu⟩ | ⟨l, r, hl⟩)
      · exact ⟨[], u, by simpa using hu⟩
      · exact ⟨a :: l, r, by simp [hl]⟩
    · rintro ⟨l, r, hl⟩
      cases l with
      | nil => exact Or.inl ⟨r, by simpa using hl⟩
      | cons b l' =>
        rw [List.cons_append, List.cons_append] at hl
        cases hl
        exact Or.inr ⟨l', r, rfl⟩

/-- Fixed page size of the Home view (`recipesPerPage = 6`). -/
def recipesPerPage : Nat := 6

/-- JS `s.toLowerCase()`, viewed as the character list it denotes. -/
def lowerChars (s : String) : List Char :=
  s.data.map Char.toLower

/-- The Home view's filter predicate (Home.jsx lines 634-636):
case-insensitive containment of the search term in the title only. -/
def titleMatches (searchTerm : String) (recipe : RecipeUI) : Bool :=
  hasSub (lowerChars recipe.titulo) (lowerChars searchTerm)

/-- `filteredRecipes` (Home.jsx lines 634-636). -/
def filteredRecipes (recipes : List RecipeUI) (searchTerm : String) :
    List RecipeUI :=
  recipes.filter (titleMatches searchTerm)

/-- `totalPages = Math.ceil(filteredRecipes.length / recipesPerPage)`
(Home.jsx line 642), as exact ceiling division on naturals. -/
def totalPages (recipes : List RecipeUI) (searchTerm : String) : Nat :=
  ((filteredRecipes recipes searchTerm).length + (recipesPerPage - 1)) /
    recipesPerPage

/-- `startIndex = (currentPage - 1) * recipesPerPage` (Home.jsx line 648). -/
def startIndex (currentPage : Nat) : Nat :=
  (currentPage - 1) * recipesPerPage

/-- `paginatedRecipes = filteredRecipes.slice(startIndex, startIndex +
recipesPerPage)` (Home.jsx line 654). -/
def paginatedRecipes (recipes : List RecipeUI) (searchTerm : String)
    (currentPage : Nat) : List RecipeUI :=
  ((filteredRecipes recipes searchTerm).drop (startIndex currentPage)).take
    recipesPerPage

/-- C5: the Home view's visible subset is exactly the title-filtered list —
membership in the filtered list is case-insensitive substring match against
the title only — windowed at indices `(p-1)*6 .. (p-1)*6+5`; `totalPages`
is the least number of 6-recipe pages covering the filtered list (exact
ceiling, never negative or undefined); and a search term matching no title
yields an empty visible set with a total page count of 0. -/
theorem home_view_spec (recipes : List RecipeUI) (searchTerm : String)
    (p : Nat) :
    (∀ r, r ∈ filteredRecipes recipes searchTerm ↔
      r ∈ recipes ∧
        ∃ l rest, lowerChars r.titulo =
          l ++ lowerChars searchTerm ++ rest) ∧
    (∀ i, (paginatedRecipes recipes searchTerm p)[i]? =
      if i < recipesPerPage then
        (filteredRecipes recipes searchTerm)[(p - 1) * recipesPerPage + i]?
      else none) ∧
    ((filteredRecipes recipes searchTerm).length ≤
      recipesPerPage * totalPages recipes searchTerm) ∧
    (∀ m, (filteredRecipes recipes searchTerm).length ≤ recipesPerPage * m →
      totalPages recipes searchTerm ≤ m) ∧
    ((∀ r ∈ recipes, titleMatches searchTerm r = false) →
      paginatedRecipes recipes searchTerm p = [] ∧
        totalPages recipes searchTerm = 0) := by
  refine ⟨?_, ?_, ?_, ?_, ?_⟩
  · intro r
    simp [filteredRecipes, List.mem_filter, titleMatches, hasSub_eq_true_iff]
  · intro i
    by_cases hi : i < recipesPerPage
    · rw [if_pos hi]
      rw [paginatedRecipes, List.getElem?_take_of_lt hi,
        List.getElem?_drop, startIndex]
    · rw [if_neg hi]
      exact List.getElem?_take_eq_none (Nat.le_of_not_lt hi)
  · have h1 := Nat.div_add_mod
      ((filteredRecipes recipes searchTerm).length + 5) 6
    have h2 := Nat.mod_lt
      ((filteredRecipes recipes searchTerm).length + 5)
      (by norm_num : 0 < 6)
    simp only [totalPages, recipesPerPage]
    omega
  · intro m hm
    simp only [totalPages, recipesPerPage] at *
    have : ((filteredRecipes recipes searchTerm).length + 5) / 6 < m + 1 := by
      rw [Nat.div_lt_iff_lt_mul (by norm_num : 0 < 6)]
      omega
    omega
  · intro hnone
    have hfil : filteredRecipes recipes searchTerm = [] := by
      rw [filteredRecipes, List.filter_eq_nil_iff]
      intro r hr
      simp [hnone r hr]
    refine ⟨?_, ?_⟩
    · rw [paginatedRecipes, hfil]
      simp
    · rw [totalPages, hfil]
      rfl

/-- A one-recipe UI collection used to exercise the Home view logic. -/
def uiBolo : RecipeUI :=
  { id := some 1
    titulo := "Bolo de Bolacha"
    imagem_url := "https://example.org/bolo.jpg"
    tempo_preparo := "45 min"
    ingredientes := "bolachas"
    instrucoes := "misturar"
    likes := 7
    categoria := "Doces"
    categoria_id := "Doces" }

/-- Witness for C5: searching `"zz"` over a collection whose single title is
`"Bolo de Bolacha"` yields an empty visible page and zero total pages. -/
theorem home_view_spec_witness :
    paginatedRecipes [uiBolo] "zz" 1 = [] ∧ totalPages [uiBolo] "zz" = 0 :=
  (home_view_spec [uiBolo] "zz" 1).2.2.2.2 (by decide)

/-- What one invocation of the like API amounted to, from the detail view's
perspective: the server returned a new count, reported the record absent
(`likeRecipe` returned `null`), or the request threw. -/
inductive LikeOutcome where
  | success (newLikes : Nat)
  | notFound
  | failure
deriving DecidableEq, Repr

/-- The RecipeDetail view's state: the locally displayed like counter, the
`liked` flag, the single-flight `isLiking` flag and the locally persisted
`liked_recipes` identifier list. -/
structure DetailState where
  likes : Nat
  liked : Bool
  isLiking : Bool
  likedSet : List Nat
deriving DecidableEq, Repr

/-- `loadRecipe` (RecipeDetail.jsx lines 359-377) for a found record: seeds
the counter from the fetched record and computes `liked` by membership of
the identifier in the persisted `liked_recipes` list. Returns `none` when
the fetch reported no record (the view shows not-found and holds no like
state). -/
def loadDetail (rid : Nat) (fetched : Option RecipeUI)
    (storedLiked : List Nat) : Option DetailState :=
  fetched.map fun d =>
    { likes := d.likes
      liked := storedLiked.contains rid
      isLiking := false
      likedSet := storedLiked }

/-- `handleLike` (RecipeDetail.jsx lines 387-412) as one atomic step, given
the outcome the like API call would have: if `isLiking` or `liked` is set
the handler returns at once (second component `false`: no request issued);
otherwise it issues the request and, on success only, adopts the returned
count, sets `liked` and appends the identifier to the persisted list.
`isLiking` is set for the duration of the call and cleared in `finally`, so
it is `false` again in the post-state. -/
def handleLike (rid : Nat) (st : DetailState) (outcome : LikeOutcome) :
    DetailState × Bool :=
  if st.isLiking || st.liked then (st, false)
  else
    match outcome with
    | .success newLikes =>
        ({ st with likes := newLikes, liked := true
                   likedSet := st.likedSet ++ [rid] }, true)
    | .notFound => (st, true)
    | .failure => (st, true)

/-- C6: (1) the like action is a no-op when `liked` or `isLiking` is set;
(2) a view loaded for an identifier already in the persisted liked-set has
`liked` set, so its like action is a no-op; (3) from an idle not-yet-liked
state a successful like adopts the server count, sets `liked`, appends the
identifier to the persisted set and issued exactly its one request; (4) any
second like after a like that issued a request and succeeded is a no-op —
the same identifier is incremented remotely at most once; (5) after a
successful like, a reload of the view from the persisted set disables the
like action permanently on this client. -/
theorem handleLike_once (st : DetailState) (rid n : Nat)
    (o o2 : LikeOutcome) :
    (st.liked = true → handleLike rid st o = (st, false)) ∧
    (st.isLiking = true → handleLike rid st o = (st, false)) ∧
    (∀ d stored s0, loadDetail rid (some d) stored = some s0 →
      rid ∈ stored → handleLike rid s0 o = (s0, false)) ∧
    (st.isLiking = false → st.liked = false →
      (handleLike rid st (LikeOutcome.success n)).1.likes = n ∧
      (handleLike rid st (LikeOutcome.success n)).1.liked = true ∧
      rid ∈ (handleLike rid st (LikeOutcome.success n)).1.likedSet ∧
      (handleLike rid st (LikeOutcome.success n)).2 = true) ∧
    ((handleLike rid st (LikeOutcome.success n)).2 = true →
      handleLike rid (handleLike rid st (LikeOutcome.success n)).1 o2 =
        ((handleLike rid st (LikeOutcome.success n)).1, false)) ∧
    (∀ d s1, st.isLiking = false → st.liked = false →
      loadDetail rid (some d)
          (handleLike rid st (LikeOutcome.success n)).1.likedSet =
        some s1 →
      handleLike rid s1 o2 = (s1, false)) := by
  refine ⟨?_, ?_, ?_, ?_, ?_, ?_⟩
  · intro h; simp [handleLike, h]
  · intro h; simp [handleLike, h]
  · intro d stored s0 hload hmem
    have hcont : stored.contains rid = true := by
      simpa [List.contains] using hmem
    have hs0 : s0 = DetailState.mk d.likes (stored.contains rid) false
        stored := by
      simpa [loadDetail] using hload.symm
    subst hs0
    rw [hcont]
    simp [handleLike]
  · intro h1 h2
    simp [handleLike, h1, h2]
  · intro hreq
    by_cases hg : (st.isLiking || st.liked) = true
    · exfalso
      simp [handleLike, hg] at hreq
    · have hg2 : st.isLiking = false ∧ st.liked = false := by
        simpa using hg
      have hfst : (handleLike rid st (LikeOutcome.success n)).1 =
          { st with likes := n, liked := true
                    likedSet := st.likedSet ++ [rid] } := by
        simp [handleLike, hg2.1, hg2.2]
      rw [hfst]
      simp [handleLike]
  · intro d s1 h1 h2 hload
    have hset : (handleLike rid st (LikeOutcome.success n)).1.likedSet =
        st.likedSet ++ [rid] := by
      simp [handleLike, h1, h2]
    rw [hset] at hload
    have hcont : (st.likedSet ++ [rid]).contains rid = true := by
      simp [List.contains]
    have hs1 : s1 = DetailState.mk d.likes
        ((st.likedSet ++ [rid]).contains rid) false
        (st.likedSet ++ [rid]) := by
      simpa [loadDetail] using hload.symm
    subst hs1
    rw [hcont]
    simp [handleLike]

/-- Witness for C6: on a concrete idle state, a successful like adopts the
count 9, and a second like attempt right after is a no-op that issues no
request. -/
theorem handleLike_once_witness :
    (handleLike 4 (DetailState.mk 8 false false [])
        (LikeOutcome.success 9)).1.likes = 9 ∧
    handleLike 4
        (handleLike 4 (DetailState.mk 8 false false [])
          (LikeOutcome.success 9)).1 (LikeOutcome.success 10) =
      ((handleLike 4 (DetailState.mk 8 false false [])
          (LikeOutcome.success 9)).1, false) := by
  have h := handleLike_once (DetailState.mk 8 false false []) 4 9
    (LikeOutcome.success 9) (LikeOutcome.success 10)
  exact ⟨(h.2.2.2.1 rfl rfl).1, h.2.2.2.2.1 ((h.2.2.2.1 rfl rfl).2.2.2)⟩

/-- The admin form buffer reset template (`emptyForm`,
AdminDashboard.jsx lines 841-848). -/
def emptyForm : FormData :=
  { titulo := "", imagem_url := "", tempo_preparo := ""
    ingredientes := "", instrucoes := "", categoria_id := "" }

/-- The AdminDashboard view's state. -/
structure AdminState where
  recipes : List RecipeUI
  categories : List Categoria
  showModal : Bool
  showDeleteModal : Bool
  editingRecipe : Option RecipeUI
  deletingRecipe : Option RecipeUI
  saving : Bool
  formData : FormData
deriving DecidableEq, Repr

/-- Outcome of the create/update API call made by the admin submit: the
server's saved record translated to UI shape, or a failure followed by the
full reload (`loadData`) whose two fetched collections are given. -/
inductive SubmitOutcome where
  | ok (saved : RecipeUI)
  | err (reloadRecipes : List RecipeUI) (reloadCategories : List Categoria)
deriving DecidableEq, Repr

/-- Outcome of the delete API call: success, or a failure followed by the
full reload whose two fetched collections are given. -/
inductive DeleteOutcome where
  | ok
  | err (reloadRecipes : List RecipeUI) (reloadCategories : List Categoria)
deriving DecidableEq, Repr

/-- `handleSubmit` (AdminDashboard.jsx lines 992-1030) as one atomic step;
the second component records whether a network request was issued. Returns
at once when `saving` is set or when `titulo`, `imagem_url` or
`categoria_id` is empty (JS falsy). Otherwise: in edit mode a success
replaces the record with the matching identifier, in create mode it appends
the new record, and both close the modal and reset the form; a failure
replaces both collections with the reload result and leaves the modal open.
`saving` is set for the duration and cleared in `finally`. -/
def handleSubmit (st : AdminState) (outcome : SubmitOutcome) :
    AdminState × Bool :=
  if st.saving then (st, false)
  else if st.formData.titulo = "" ∨ st.formData.imagem_url = "" ∨
      st.formData.categoria_id = "" then (st, false)
  else
    match st.editingRecipe, outcome with
    | some editing, .ok saved =>
        ({ st with
            recipes := st.recipes.map fun r =>
              if r.id = editing.id then saved else r
            showModal := false, editingRecipe := none
            formData := emptyForm, saving := false }, true)
    | none, .ok saved =>
        ({ st with
            recipes := st.recipes ++ [saved]
            showModal := false, editingRecipe := none
            formData := emptyForm, saving := false }, true)
    | _, .err rs cs =>
        ({ st with recipes := rs, categories := cs, saving := false }, true)

/-- `handleDelete` (AdminDashboard.jsx lines 1038-1058) as one atomic step;
the second component records whether a network request was issued. Returns
at once when no recipe is marked for deletion; on success it removes every
record with the deleted identifier from the local collection and closes the
confirmation modal; on failure it replaces both collections with the reload
result. Note the handler itself does not test `saving`. -/
def handleDelete (st : AdminState) (outcome : DeleteOutcome) :
    AdminState × Bool :=
  match st.deletingRecipe with
  | none => (st, false)
  | some deleting =>
      match outcome with
      | .ok =>
          ({ st with
              recipes := st.recipes.filter fun r =>
                decide ¬ r.id = deleting.id
              showDeleteModal := false, deletingRecipe := none
              saving := false }, true)
      | .err rs cs =>
          ({ st with
              recipes := rs, categories := cs
              saving := false }, true)

/-- A click on the delete confirmation button (AdminDashboard.jsx lines
1356-1373): the button carries `disabled={saving}`, so while `saving` is
set the click dispatches nothing and `handleDelete` never runs. -/
def clickDelete (st : AdminState) (outcome : DeleteOutcome) :
    AdminState × Bool :=
  if st.saving then (st, false) else handleDelete st outcome

/-- C7: while the in-flight `saving` flag is set, a submit (the handler
itself returns at once) and a delete (the confirmation button is disabled)
are both no-ops: no network request is issued and the admin state is
unchanged. -/
theorem saving_serializes (st : AdminState) (o1 : SubmitOutcome)
    (o2 : DeleteOutcome) (h : st.saving = true) :
    handleSubmit st o1 = (st, false) ∧ clickDelete st o2 = (st, false) := by
  constructor
  · simp [handleSubmit, h]
  · simp [clickDelete, h]

/-- A concrete admin state whose save/delete flag is set. -/
def adminStSaving : AdminState :=
  { recipes := [uiBolo]
    categories := [Categoria.mk 1 "Doces"]
    showModal := true
    showDeleteModal := true
    editingRecipe := none
    deletingRecipe := some uiBolo
    saving := true
    formData := emptyForm }

/-- Witness for C7 at a concrete in-flight state. -/
theorem saving_serializes_witness :
    handleSubmit adminStSaving (SubmitOutcome.ok uiBolo) =
        (adminStSaving, false) ∧
      clickDelete adminStSaving DeleteOutcome.ok = (adminStSaving, false) :=
  saving_serializes adminStSaving (SubmitOutcome.ok uiBolo)
    DeleteOutcome.ok rfl

/-- C8: when the delete succeeds for the recipe marked for deletion, the
local collection afterwards contains exactly the previous records whose
identifier differs from the deleted one, in their previous order and with
all field values unchanged (the result is a sublist of the old collection),
and the one delete request was issued. -/
theorem delete_success_removes_exactly (st : AdminState) (dr : RecipeUI)
    (h : st.deletingRecipe = some dr) :
    (∀ r, r ∈ (handleDelete st DeleteOutcome.ok).1.recipes ↔
      r ∈ st.recipes ∧ r.id ≠ dr.id) ∧
    List.Sublist (handleDelete st DeleteOutcome.ok).1.recipes st.recipes ∧
    (handleDelete st DeleteOutcome.ok).2 = true := by
  refine ⟨?_, ?_, ?_⟩
  · intro r
    simp [handleDelete, h, List.mem_filter]
  · simp only [handleDelete, h]
    exact List.filter_sublist _
  · simp [handleDelete, h]

/-- A second UI record, sharing no identifier with `uiBolo`. -/
def uiCaldo : RecipeUI :=
  { id := some 2
    titulo := "Caldo Verde"
    imagem_url := "https://example.org/caldo.jpg"
    tempo_preparo := "30 min"
    ingredientes := "couve"
    instrucoes := "ferver"
    likes := 3
    categoria := "Sopas"
    categoria_id := "Sopas" }

/-- A concrete idle admin state about to delete `uiCaldo`. -/
def adminStDeleting : AdminState :=
  { recipes := [uiBolo, uiCaldo]
    categories := [Categoria.mk 1 "Doces", Categoria.mk 2 "Sopas"]
    showModal := false
    showDeleteModal := true
    editingRecipe := none
    deletingRecipe := some uiCaldo
    saving := false
    formData := emptyForm }

/-- Witness for C8: deleting `uiCaldo` keeps `uiBolo` and drops `uiCaldo`. -/
theorem delete_success_removes_exactly_witness :
    uiBolo ∈ (handleDelete adminStDeleting DeleteOutcome.ok).1.recipes ∧
      ¬ uiCaldo ∈ (handleDelete adminStDeleting DeleteOutcome.ok).1.recipes := by
  have h := delete_success_removes_exactly adminStDeleting uiCaldo rfl
  constructor
  · exact (h.1 uiBolo).mpr ⟨by decide, by decide⟩
  · intro hmem
    exact ((h.1 uiCaldo).mp hmem).2 rfl

/-- C9: submitting the admin form while `titulo`, `imagem_url` or
`categoria_id` is empty issues no network request and leaves the whole
admin state — in particular the recipe collection — unchanged; the
rejection happens before any network call. -/
theorem submit_validation_rejects (st : AdminState) (o : SubmitOutcome)
    (h : st.formData.titulo = "" ∨ st.formData.imagem_url = "" ∨
      st.formData.categoria_id = "") :
    handleSubmit st o = (st, false) := by
  by_cases hs : st.saving = true
  · simp [handleSubmit, hs]
  · have hs2 : st.saving = false := by simpa using hs
    simp [handleSubmit, hs2, h]

/-- A concrete idle admin state whose form has an empty title. -/
def adminStEmptyTitle : AdminState :=
  { recipes := [uiBolo]
    categories := [Categoria.mk 1 "Doces"]
    showModal := true
    showDeleteModal := false
    editingRecipe := none
    deletingRecipe := none
    saving := false
    formData :=
      { titulo := ""
        imagem_url := "https://example.org/x.jpg"
        tempo_preparo := "10 min"
        ingredientes := "x"
        instrucoes := "y"
        categoria_id := "Doces" } }

/-- Witness for C9 at a concrete empty-title form. -/
theorem submit_validation_rejects_witness :
    handleSubmit adminStEmptyTitle (SubmitOutcome.ok uiCaldo) =
      (adminStEmptyTitle, false) :=
  submit_validation_rejects adminStEmptyTitle (SubmitOutcome.ok uiCaldo)
    (Or.inl rfl)
